import Mathlib

/-!
Verification of the SleekFinance development launcher (`src/launch.py`).

The script is a thin orchestrator: it checks for a `node_modules` marker,
runs `npm install` if it is absent, then spawns the development server and
tees its merged stdout/stderr line by line to the console and to an
append-only log file, flushing the log after every line.

We embed it shallowly: the external world (filesystem entry for
`node_modules`, the `npm install` return code, the spawned child's merged
output lines and exit code, the wall-clock strings) is an `Env`; the
observable effects (console writes, log-file chunks written, the durable
flushed log content, which subprocesses were spawned, whether the log file
was opened) are a state record `St` threaded through the functions, which
keep the Python names `log`, `ensure_dependencies`, `stream_process`,
`main`.  Exceptions are modelled with `Except`: `ensure_dependencies`
raises `RuntimeError(msg)` as `.error msg`, and a failed `Popen` spawn in
`stream_process` is `Env.spawn = none`, propagated as `.error ()`.
-/

namespace Launch

/-- Kind of filesystem entry sitting at `ROOT / "node_modules"`, if any.
`pathlib.Path.exists()` is true for any kind of entry. -/
inductive Entry
  | dir
  | file
  | other
deriving DecidableEq, Repr

/-- The external world an invocation of the launcher observes:
* `nodeModules`: the filesystem entry named `node_modules` at the project
  root, or `none` if absent;
* `npmInstallCode`: the return code `subprocess.run(["npm", "install"])`
  would produce;
* `spawn`: what `subprocess.Popen` of the main command yields — `none` if
  the spawn itself fails (e.g. executable not found, an `OSError`), or
  `some (lines, code)`: the merged stdout/stderr stream split into lines
  (each line keeps its terminator, as Python line iteration does) together
  with the child's exit code;
* `nowStrf`: the `strftime("%Y-%m-%d %H:%M:%S")` timestamp used by `log`;
* `nowIso`: the `isoformat()` timestamp used in the log-file header. -/
structure Env where
  nodeModules : Option Entry
  npmInstallCode : Int
  spawn : Option (List String × Int)
  nowStrf : String
  nowIso : String
deriving DecidableEq, Repr

/-- Observable state of one run: `console` is the sequence of strings
written to stdout; `logDirExists` whether `LOG_DIR` exists; `logChunks`
the full content of the log file as the ordered list of chunks ever
written to it (append-only); `durable` the prefix of that content known
flushed to disk; `installSpawned` / `mainSpawned` whether the respective
subprocess was spawned; `logOpened` whether the log file was opened. -/
structure St where
  console : List String
  logDirExists : Bool
  logChunks : List String
  durable : List String
  installSpawned : Bool
  mainSpawned : Bool
  logOpened : Bool
deriving DecidableEq, Repr

/-- `ROOT / "logs" / "sleekfinance-dev.log"`, as a path string. -/
def LOG_FILE : String := "logs/sleekfinance-dev.log"

/-- The console line `f"[{timestamp}] {message}"` printed by `log`. -/
def consoleLine (env : Env) (message : String) : String :=
  "[" ++ env.nowStrf ++ "] " ++ message ++ "\n"

/-- `log(message)`: print `f"[{timestamp}] {message}"` to the console.
The console only; it never touches the log file. -/
def log (env : Env) (message : String) (s : St) : St :=
  { s with console := s.console ++ [consoleLine env message] }

/-- The message of the `RuntimeError` raised when `npm install` fails. -/
def npmInstallFailMsg : String := "npm install failed. Check the log for details."

/-- `ensure_dependencies()`: skip if `(ROOT / "node_modules").exists()`,
else spawn `npm install` and raise `RuntimeError` on a non-zero return
code.  The raised exception is the `.error` branch. -/
def ensure_dependencies (env : Env) (s : St) : St × Except String Unit :=
  if env.nodeModules.isSome then
    (log env "Dependencies already installed. Skipping npm install." s, .ok ())
  else
    let s1 := log env "Installing dependencies with npm install …" s
    let s2 := { s1 with installSpawned := true }
    if env.npmInstallCode ≠ 0 then
      (s2, .error npmInstallFailMsg)
    else
      (s2, .ok ())

/-- Append one chunk to the log file (buffered, not yet durable). -/
def writeLog (chunk : String) (s : St) : St :=
  { s with logChunks := s.logChunks ++ [chunk] }

/-- `log_handle.flush()` (or closing the handle): the durable content
catches up with everything written so far. -/
def flushLog (s : St) : St :=
  { s with durable := s.logChunks }

/-- `sys.stdout.write(line)`. -/
def writeConsole (line : String) (s : St) : St :=
  { s with console := s.console ++ [line] }

/-- The `"=" * 80` separator. -/
def sep80 : String := String.mk (List.replicate 80 '=')

/-- The three header chunks `stream_process` writes before spawning:
separator line, ISO timestamp line, command line. -/
def headerChunks (env : Env) (command : List String) : List String :=
  ["\n" ++ sep80 ++ "\n",
   "Launch at " ++ env.nowIso ++ "\n",
   "Command: " ++ String.intercalate " " command ++ "\n\n"]

/-- The footer chunk recording the child's exit code. -/
def footerChunk (code : Int) : String :=
  "\nProcess exited with code " ++ toString code ++ "\n"

/-- State after `LOG_DIR.mkdir(parents=True, exist_ok=True)`, opening the
log file in append mode, and the three header writes — everything
`stream_process` does before `subprocess.Popen`. -/
def postOpenState (env : Env) (command : List String) (s : St) : St :=
  writeLog ("Command: " ++ String.intercalate " " command ++ "\n\n")
    (writeLog ("Launch at " ++ env.nowIso ++ "\n")
      (writeLog ("\n" ++ sep80 ++ "\n")
        { s with logDirExists := true, logOpened := true }))

/-- `postOpenState` plus the successful `Popen`. -/
def postSpawnState (env : Env) (command : List String) (s : St) : St :=
  { postOpenState env command s with mainSpawned := true }

/-- One iteration of the read-line loop: write the line to the console,
write it to the log, flush the log. -/
def streamIter (line : String) (s : St) : St :=
  flushLog (writeLog line (writeConsole line s))

/-- The read-line loop `for line in process.stdout`. -/
def streamLoop (lines : List String) (s : St) : St :=
  lines.foldl (fun t l => streamIter l t) s

/-- `stream_process(command)`: make the log directory, open the log in
append mode, write the header, spawn the child; on spawn failure the
exception propagates (`.error ()`, the `with` block closing — hence
flushing — the log file on the way out); otherwise tee every output line
to console and log, wait, write the footer, and return the exit code. -/
def stream_process (env : Env) (command : List String) (s : St) :
    St × Except Unit Int :=
  match env.spawn with
  | none => (flushLog (postOpenState env command s), .error ())
  | some (lines, code) =>
      let t := streamLoop lines (postSpawnState env command s)
      (flushLog (writeLog (footerChunk code) t), .ok code)

/-- State after `i` iterations of the read-line loop of
`stream_process env command s`, given a successful spawn of a child whose
output is `lines`. -/
def loopState (env : Env) (command : List String) (lines : List String)
    (s : St) (i : Nat) : St :=
  streamLoop (lines.take i) (postSpawnState env command s)

/-- The main development-server command. -/
def mainCommand : List String := ["npm", "run", "dev", "--", "--host", "0.0.0.0"]

/-- The tail of `main` after `stream_process` returned: a spawn failure is
not caught and propagates; otherwise `main` logs a closing message chosen
by the exit code and returns that exit code. -/
def afterStream (env : Env) (r : St × Except Unit Int) : St × Except Unit Int :=
  match r with
  | (s2, .error e) => (s2, .error e)
  | (s2, .ok code) =>
      if code = 0 then
        (log env ("Development server exited cleanly. Full log written to "
          ++ LOG_FILE ++ ".") s2, .ok code)
      else
        (log env ("Development server exited with errors. Review the log file at "
          ++ LOG_FILE ++ " for diagnostics.") s2, .ok code)

/-- The tail of `main` after `ensure_dependencies` returned: the
`try/except` catches any install failure, logs it with the exception
message, and returns `1`; on success `main` goes on to run the dev server
through `stream_process`. -/
def afterInstall (env : Env) (r : St × Except String Unit) : St × Except Unit Int :=
  match r with
  | (s1, .error msg) =>
      (log env ("Dependency installation failed: " ++ msg) s1, .ok 1)
  | (s1, .ok _) =>
      afterStream env (stream_process env mainCommand s1)

/-- `main()`: log the start banner, run `ensure_dependencies` under
`try/except`, then run the dev server and return its exit code. -/
def main (env : Env) (s : St) : St × Except Unit Int :=
  afterInstall env
    (ensure_dependencies env (log env "Starting SleekFinance launcher…" s))

/-- "Dependency installation succeeds or is skipped": the marker entry
exists (skip) or `npm install` returns 0 (success). -/
def installOk (env : Env) : Prop :=
  env.nodeModules.isSome ∨ env.npmInstallCode = 0

instance (env : Env) : Decidable (installOk env) := by
  unfold installOk; infer_instance

/-- A complete header/footer-framed log section for one invocation. -/
def framedSection (env : Env) (command : List String) (lines : List String)
    (code : Int) : List String :=
  headerChunks env command ++ lines ++ [footerChunk code]

/-- The initial state of a fresh run of the launcher over a log file whose
prior content is `prior` (durable, since no handle is open). -/
def St.init (prior : List String) (dirExists : Bool) : St :=
  { console := [], logDirExists := dirExists, logChunks := prior,
    durable := prior, installSpawned := false, mainSpawned := false,
    logOpened := false }

/-! ### Concrete worlds used as witnesses -/

/-- Marker directory present, install skipped, child echoes one line and
exits 0. -/
def wEnvDir : Env :=
  { nodeModules := some Entry.dir, npmInstallCode := 0,
    spawn := some (["hello\n"], 0),
    nowStrf := "2025-01-01 12:00:00", nowIso := "2025-01-01T12:00:00" }

/-- No marker, `npm install` fails with return code 1. -/
def wEnvInstallFail : Env :=
  { nodeModules := none, npmInstallCode := 1, spawn := some ([], 0),
    nowStrf := "2025-01-01 12:00:00", nowIso := "2025-01-01T12:00:00" }

/-- Marker is a regular file; the main command cannot be spawned. -/
def wEnvSpawnFail : Env :=
  { nodeModules := some Entry.file, npmInstallCode := 0, spawn := none,
    nowStrf := "2025-01-01 12:00:00", nowIso := "2025-01-01T12:00:00" }

/-- Marker is a regular file, child prints two lines and exits 3. -/
def wEnvFile : Env :=
  { nodeModules := some Entry.file, npmInstallCode := 0,
    spawn := some (["a\n", "b\n"], 3),
    nowStrf := "2025-01-01 12:00:00", nowIso := "2025-01-01T12:00:00" }

/-- No marker, install succeeds, child prints one line and exits 0. -/
def wEnvInstalled : Env :=
  { nodeModules := none, npmInstallCode := 0, spawn := some (["ok\n"], 0),
    nowStrf := "2025-01-02 08:00:00", nowIso := "2025-01-02T08:00:00" }

/-- A fresh state over an empty log file. -/
def wSt : St := St.init [] false

/-! ### Helper lemmas -/

theorem ensure_dependencies_skip (env : Env) (s : St) (e : Entry)
    (h : env.nodeModules = some e) :
    ensure_dependencies env s =
      (log env "Dependencies already installed. Skipping npm install." s,
       .ok ()) := by
  rw [ensure_dependencies, h]
  rfl

theorem ensure_dependencies_installed (env : Env) (s : St)
    (h1 : env.nodeModules = none) (h2 : env.npmInstallCode = 0) :
    ensure_dependencies env s =
      ({ log env "Installing dependencies with npm install …" s with
          installSpawned := true }, .ok ()) := by
  rw [ensure_dependencies, h1]
  simp [h2]

theorem ensure_dependencies_failed (env : Env) (s : St)
    (h1 : env.nodeModules = none) (h2 : env.npmInstallCode ≠ 0) :
    ensure_dependencies env s =
      ({ log env "Installing dependencies with npm install …" s with
          installSpawned := true }, .error npmInstallFailMsg) := by
  rw [ensure_dependencies, h1]
  simp [h2]

theorem streamIter_eq (l : String) (s : St) :
    streamIter l s = { s with console := s.console ++ [l],
                              logChunks := s.logChunks ++ [l],
                              durable := s.logChunks ++ [l] } := rfl

theorem streamLoop_cons (l : String) (ls : List String) (s : St) :
    streamLoop (l :: ls) s = streamLoop ls (streamIter l s) := rfl

theorem streamLoop_console (ls : List String) (s : St) :
    (streamLoop ls s).console = s.console ++ ls := by
  induction ls generalizing s with
  | nil => simp [streamLoop]
  | cons l ls ih =>
      rw [streamLoop_cons, ih, streamIter_eq]
      simp

theorem streamLoop_logChunks (ls : List String) (s : St) :
    (streamLoop ls s).logChunks = s.logChunks ++ ls := by
  induction ls generalizing s with
  | nil => simp [streamLoop]
  | cons l ls ih =>
      rw [streamLoop_cons, ih, streamIter_eq]
      simp

theorem streamLoop_durable (ls : List String) (s : St) (h : ls ≠ []) :
    (streamLoop ls s).durable = s.logChunks ++ ls := by
  induction ls generalizing s with
  | nil => exact absurd rfl h
  | cons l ls ih =>
      rw [streamLoop_cons]
      cases ls with
      | nil => rw [streamLoop, List.foldl_nil, streamIter_eq]
      | cons m ms =>
          rw [ih _ (by simp), streamIter_eq]
          simp

theorem streamLoop_frame (ls : List String) (s : St) :
    (streamLoop ls s).logDirExists = s.logDirExists ∧
    (streamLoop ls s).installSpawned = s.installSpawned ∧
    (streamLoop ls s).mainSpawned = s.mainSpawned ∧
    (streamLoop ls s).logOpened = s.logOpened := by
  induction ls generalizing s with
  | nil => simp [streamLoop]
  | cons l ls ih =>
      rw [streamLoop_cons]
      exact ih (streamIter l s)

theorem postOpenState_eq (env : Env) (command : List String) (s : St) :
    postOpenState env command s =
      { s with logDirExists := true, logOpened := true,
               logChunks := s.logChunks ++ headerChunks env command } := by
  simp [postOpenState, writeLog, headerChunks]

theorem postSpawnState_eq (env : Env) (command : List String) (s : St) :
    postSpawnState env command s =
      { s with logDirExists := true, logOpened := true, mainSpawned := true,
               logChunks := s.logChunks ++ headerChunks env command } := by
  rw [postSpawnState, postOpenState_eq]

theorem stream_process_ok (env : Env) (command : List String) (s : St)
    (lines : List String) (code : Int) (h : env.spawn = some (lines, code)) :
    stream_process env command s =
      (flushLog (writeLog (footerChunk code)
         (streamLoop lines (postSpawnState env command s))), .ok code) := by
  rw [stream_process, h]

theorem stream_process_logChunks (env : Env) (command : List String) (s : St)
    (lines : List String) (code : Int) (h : env.spawn = some (lines, code)) :
    (stream_process env command s).1.logChunks =
      s.logChunks ++ framedSection env command lines code := by
  rw [stream_process_ok env command s lines code h]
  simp [flushLog, writeLog, streamLoop_logChunks, postSpawnState_eq,
    framedSection, List.append_assoc]

theorem stream_process_console (env : Env) (command : List String) (s : St)
    (lines : List String) (code : Int) (h : env.spawn = some (lines, code)) :
    (stream_process env command s).1.console = s.console ++ lines := by
  rw [stream_process_ok env command s lines code h]
  simp [flushLog, writeLog, streamLoop_console, postSpawnState_eq]

theorem afterInstall_err_eq (env : Env) (s1 : St) (msg : String) :
    afterInstall env (s1, .error msg) =
      (log env ("Dependency installation failed: " ++ msg) s1, .ok 1) := rfl

theorem afterInstall_ok_eq (env : Env) (s1 : St) :
    afterInstall env (s1, .ok ()) =
      afterStream env (stream_process env mainCommand s1) := rfl

theorem afterStream_ok_snd (env : Env) (s2 : St) (code : Int) :
    (afterStream env (s2, .ok code)).2 = .ok code := by
  rcases eq_or_ne code 0 with hc | hc <;> simp [afterStream, hc]

theorem afterStream_ok_logChunks (env : Env) (s2 : St) (code : Int) :
    (afterStream env (s2, .ok code)).1.logChunks = s2.logChunks := by
  rcases eq_or_ne code 0 with hc | hc <;> simp [afterStream, hc, log]

theorem afterStream_err_eq (env : Env) (s2 : St) (e : Unit) :
    afterStream env (s2, .error e) = (s2, .error e) := rfl

theorem stream_process_err (env : Env) (command : List String) (s : St)
    (h : env.spawn = none) :
    stream_process env command s =
      (flushLog (postOpenState env command s), .error ()) := by
  rw [stream_process, h]

theorem getLast?_append_singleton (xs : List String) (a : String) :
    (xs ++ [a]).getLast? = some a := by
  simp

theorem afterStream_logChunks (env : Env) (r : St × Except Unit Int) :
    (afterStream env r).1.logChunks = r.1.logChunks := by
  rcases r with ⟨s2, e⟩
  cases e with
  | error e => rfl
  | ok code => exact afterStream_ok_logChunks env s2 code

theorem stream_process_logChunks_extends (env : Env) (command : List String)
    (s : St) :
    s.logChunks <+: (stream_process env command s).1.logChunks := by
  cases hsp : env.spawn with
  | none =>
      rw [stream_process_err env command s hsp]
      simp only [flushLog, postOpenState_eq]
      exact List.prefix_append _ _
  | some p =>
      rcases p with ⟨lines, code⟩
      rw [stream_process_logChunks env command s lines code hsp]
      exact List.prefix_append _ _

theorem main_install_failed_eq (env : Env) (s : St)
    (h1 : env.nodeModules = none) (h2 : env.npmInstallCode ≠ 0) :
    main env s =
      (log env ("Dependency installation failed: " ++ npmInstallFailMsg)
        { log env "Installing dependencies with npm install …"
            (log env "Starting SleekFinance launcher…" s) with
          installSpawned := true },
       .ok 1) := by
  rw [main, ensure_dependencies_failed env _ h1 h2, afterInstall_err_eq]

theorem main_logChunks_extends (env : Env) (s : St) :
    s.logChunks <+: (main env s).1.logChunks := by
  cases hnm : env.nodeModules with
  | some e =>
      rw [main, ensure_dependencies_skip env _ e hnm, afterInstall_ok_eq,
        afterStream_logChunks]
      have h := stream_process_logChunks_extends env mainCommand
        (log env "Dependencies already installed. Skipping npm install."
          (log env "Starting SleekFinance launcher…" s))
      simpa [log] using h
  | none =>
      by_cases h0 : env.npmInstallCode = 0
      · rw [main, ensure_dependencies_installed env _ hnm h0,
          afterInstall_ok_eq, afterStream_logChunks]
        have h := stream_process_logChunks_extends env mainCommand
          { log env "Installing dependencies with npm install …"
              (log env "Starting SleekFinance launcher…" s) with
            installSpawned := true }
        simpa [log] using h
      · rw [main_install_failed_eq env s hnm h0]
        exact List.prefix_refl _

theorem main_ok_snd (env : Env) (s : St) (lines : List String) (code : Int)
    (hok : installOk env) (hsp : env.spawn = some (lines, code)) :
    (main env s).2 = .ok code := by
  cases hnm : env.nodeModules with
  | some e =>
      rw [main, ensure_dependencies_skip env _ e hnm, afterInstall_ok_eq,
        stream_process_ok env mainCommand _ lines code hsp]
      exact afterStream_ok_snd env _ code
  | none =>
      have h0 : env.npmInstallCode = 0 := by
        rcases hok with hs | h0
        · rw [hnm] at hs; cases hs
        · exact h0
      rw [main, ensure_dependencies_installed env _ hnm h0, afterInstall_ok_eq,
        stream_process_ok env mainCommand _ lines code hsp]
      exact afterStream_ok_snd env _ code

theorem main_ok_logChunks (env : Env) (s : St) (lines : List String) (code : Int)
    (hok : installOk env) (hsp : env.spawn = some (lines, code)) :
    (main env s).1.logChunks =
      s.logChunks ++ framedSection env mainCommand lines code := by
  cases hnm : env.nodeModules with
  | some e =>
      rw [main, ensure_dependencies_skip env _ e hnm, afterInstall_ok_eq,
        stream_process_ok env mainCommand _ lines code hsp,
        afterStream_ok_logChunks]
      simp [log, flushLog, writeLog, streamLoop_logChunks,
        postSpawnState_eq, framedSection, List.append_assoc]
  | none =>
      have h0 : env.npmInstallCode = 0 := by
        rcases hok with hs | h0
        · rw [hnm] at hs; cases hs
        · exact h0
      rw [main, ensure_dependencies_installed env _ hnm h0, afterInstall_ok_eq,
        stream_process_ok env mainCommand _ lines code hsp,
        afterStream_ok_logChunks]
      simp [log, flushLog, writeLog, streamLoop_logChunks,
        postSpawnState_eq, framedSection, List.append_assoc]

/-! ### Claims -/

/-- C1: for every command whose merged output consists of the lines
`lines`, `stream_process` writes exactly those lines, unmodified and in
the same order, to the console, and writes the same lines in the same
order to the log file, placed between the header and the footer of that
invocation's log section. -/
theorem C1_stream_process_tees_lines (env : Env) (command : List String)
    (s : St) (lines : List String) (code : Int)
    (h : env.spawn = some (lines, code)) :
    (stream_process env command s).1.console = s.console ++ lines ∧
    (stream_process env command s).1.logChunks =
      s.logChunks ++ headerChunks env command ++ lines ++ [footerChunk code] :=
  ⟨stream_process_console env command s lines code h, by
    rw [stream_process_logChunks env command s lines code h, framedSection]
    simp [List.append_assoc]⟩

theorem C1_stream_process_tees_lines_witness :
    (stream_process wEnvDir ["echo", "hello"] wSt).1.console =
      wSt.console ++ ["hello\n"] ∧
    (stream_process wEnvDir ["echo", "hello"] wSt).1.logChunks =
      wSt.logChunks ++ headerChunks wEnvDir ["echo", "hello"] ++ ["hello\n"] ++
        [footerChunk 0] :=
  C1_stream_process_tees_lines wEnvDir ["echo", "hello"] wSt ["hello\n"] 0 rfl

/-- C2: if dependency installation succeeds or is skipped, `main` returns
the exit code of the main development-server subprocess; if dependency
installation fails, `main` returns `1`. -/
theorem C2_main_exit_code (env : Env) (s : St) (lines : List String)
    (code : Int) :
    (installOk env → env.spawn = some (lines, code) →
      (main env s).2 = .ok code) ∧
    (env.nodeModules = none → env.npmInstallCode ≠ 0 →
      (main env s).2 = .ok 1) :=
  ⟨fun hok hsp => main_ok_snd env s lines code hok hsp,
   fun h1 h2 => by rw [main_install_failed_eq env s h1 h2]⟩

theorem C2_main_exit_code_witness :
    (main wEnvFile wSt).2 = .ok 3 ∧ (main wEnvInstallFail wSt).2 = .ok 1 :=
  ⟨(C2_main_exit_code wEnvFile wSt ["a\n", "b\n"] 3).1 (Or.inl rfl) rfl,
   (C2_main_exit_code wEnvInstallFail wSt [] 0).2 rfl (by decide)⟩

/-- C3: when the dependency-install subprocess exits non-zero, the failure
is caught and logged with the exception message, the main
development-server command is never spawned, and `main` returns exit
code 1. -/
theorem C3_install_failure_handling (env : Env) (s : St)
    (h1 : env.nodeModules = none) (h2 : env.npmInstallCode ≠ 0) :
    (main env s).2 = .ok 1 ∧
    (main env s).1.mainSpawned = s.mainSpawned ∧
    (main env s).1.console = s.console ++
      [consoleLine env "Starting SleekFinance launcher…",
       consoleLine env "Installing dependencies with npm install …",
       consoleLine env
         ("Dependency installation failed: " ++ npmInstallFailMsg)] := by
  rw [main_install_failed_eq env s h1 h2]
  refine ⟨rfl, rfl, ?_⟩
  simp [log, List.append_assoc]

theorem C3_install_failure_handling_witness :
    (main wEnvInstallFail wSt).2 = .ok 1 ∧
    (main wEnvInstallFail wSt).1.mainSpawned = wSt.mainSpawned ∧
    (main wEnvInstallFail wSt).1.console = wSt.console ++
      [consoleLine wEnvInstallFail "Starting SleekFinance launcher…",
       consoleLine wEnvInstallFail "Installing dependencies with npm install …",
       consoleLine wEnvInstallFail
         ("Dependency installation failed: " ++ npmInstallFailMsg)] :=
  C3_install_failure_handling wEnvInstallFail wSt rfl (by decide)

/-- C4: when the dependency marker directory exists at the project root,
`ensure_dependencies` returns normally without spawning any install
subprocess, logging only the skip message. -/
theorem C4_marker_dir_skips_install (env : Env) (s : St)
    (h : env.nodeModules = some Entry.dir) :
    (ensure_dependencies env s).2 = .ok () ∧
    (ensure_dependencies env s).1.installSpawned = s.installSpawned ∧
    (ensure_dependencies env s).1.console = s.console ++
      [consoleLine env
        "Dependencies already installed. Skipping npm install."] := by
  rw [ensure_dependencies_skip env s Entry.dir h]
  exact ⟨rfl, rfl, rfl⟩

theorem C4_marker_dir_skips_install_witness :
    (ensure_dependencies wEnvDir wSt).2 = .ok () ∧
    (ensure_dependencies wEnvDir wSt).1.installSpawned = wSt.installSpawned ∧
    (ensure_dependencies wEnvDir wSt).1.console = wSt.console ++
      [consoleLine wEnvDir
        "Dependencies already installed. Skipping npm install."] :=
  C4_marker_dir_skips_install wEnvDir wSt rfl

/-- C5: the log is append-only: a run of `main` (install succeeding or
skipped, child spawned) extends the prior log content with exactly one
header/footer-framed section, so the prior content is a prefix of the new
content; two runs from an empty log yield two framed sections. -/
theorem C5_log_append_only (env1 env2 : Env) (s : St)
    (l1 l2 : List String) (c1 c2 : Int)
    (hok1 : installOk env1) (hsp1 : env1.spawn = some (l1, c1))
    (hok2 : installOk env2) (hsp2 : env2.spawn = some (l2, c2)) :
    (∀ (env : Env) (t : St), t.logChunks <+: (main env t).1.logChunks) ∧
    (main env1 s).1.logChunks =
      s.logChunks ++ framedSection env1 mainCommand l1 c1 ∧
    (main env2 (main env1 (St.init [] false)).1).1.logChunks =
      framedSection env1 mainCommand l1 c1 ++
        framedSection env2 mainCommand l2 c2 := by
  have e1 := main_ok_logChunks env1 s l1 c1 hok1 hsp1
  have einit := main_ok_logChunks env1 (St.init [] false) l1 c1 hok1 hsp1
  have e2 := main_ok_logChunks env2 (main env1 (St.init [] false)).1 l2 c2
    hok2 hsp2
  refine ⟨main_logChunks_extends, e1, ?_⟩
  rw [e2, einit]
  simp [St.init]

theorem C5_log_append_only_witness :
    (∀ (env : Env) (t : St), t.logChunks <+: (main env t).1.logChunks) ∧
    (main wEnvDir wSt).1.logChunks =
      wSt.logChunks ++ framedSection wEnvDir mainCommand ["hello\n"] 0 ∧
    (main wEnvInstalled (main wEnvDir (St.init [] false)).1).1.logChunks =
      framedSection wEnvDir mainCommand ["hello\n"] 0 ++
        framedSection wEnvInstalled mainCommand ["ok\n"] 0 :=
  C5_log_append_only wEnvDir wEnvInstalled wSt ["hello\n"] ["ok\n"] 0 0
    (Or.inl rfl) rfl (Or.inr rfl) rfl

/-- C6: after every iteration `i` of the read-line loop in
`stream_process`, the log has been flushed, so its durable content is the
prior log content, the header, and exactly the `i` lines the console has
received so far, in the same order — the console lines are a suffix of the
durable log; and the loop states are exactly the ones `stream_process`
runs through (its result is the footer write and final flush applied to
the state after the last iteration). -/
theorem C6_flush_keeps_durable_in_sync (env : Env) (command : List String)
    (s : St) (lines : List String) (code : Int) (i : Nat)
    (hsp : env.spawn = some (lines, code)) (hi : 0 < i)
    (hN : i ≤ lines.length) :
    (loopState env command lines s i).console = s.console ++ lines.take i ∧
    (loopState env command lines s i).durable =
      s.logChunks ++ headerChunks env command ++ lines.take i ∧
    lines.take i <:+ (loopState env command lines s i).durable ∧
    stream_process env command s =
      (flushLog (writeLog (footerChunk code)
        (loopState env command lines s lines.length)), .ok code) := by
  have hne : lines.take i ≠ [] := by
    intro h
    have hl : (lines.take i).length = 0 := by rw [h]; rfl
    rw [List.length_take] at hl
    omega
  have hdur : (loopState env command lines s i).durable =
      s.logChunks ++ headerChunks env command ++ lines.take i := by
    rw [loopState, streamLoop_durable _ _ hne, postSpawnState_eq]
  refine ⟨?_, hdur, ?_, ?_⟩
  · rw [loopState, streamLoop_console, postSpawnState_eq]
  · rw [hdur]
    exact List.suffix_append _ _
  · rw [loopState, List.take_length]
    exact stream_process_ok env command s lines code hsp

theorem C6_flush_keeps_durable_in_sync_witness :
    (loopState wEnvFile ["npm"] ["a\n", "b\n"] wSt 1).console =
      wSt.console ++ (["a\n", "b\n"] : List String).take 1 ∧
    (loopState wEnvFile ["npm"] ["a\n", "b\n"] wSt 1).durable =
      wSt.logChunks ++ headerChunks wEnvFile ["npm"] ++
        (["a\n", "b\n"] : List String).take 1 ∧
    (["a\n", "b\n"] : List String).take 1 <:+
      (loopState wEnvFile ["npm"] ["a\n", "b\n"] wSt 1).durable ∧
    stream_process wEnvFile ["npm"] wSt =
      (flushLog (writeLog (footerChunk 3)
        (loopState wEnvFile ["npm"] ["a\n", "b\n"] wSt
          (["a\n", "b\n"] : List String).length)), .ok 3) :=
  C6_flush_keeps_durable_in_sync wEnvFile ["npm"] wSt ["a\n", "b\n"] 3 1
    rfl (by decide) (by decide)

/-- C7: `stream_process` makes the log directory exist, appends a header
of a separator line, an ISO timestamp line and the command line, and,
after the child exits, appends a footer recording the exit code; for a
child exiting 0, the log's last chunk is the footer line
`Process exited with code 0`. -/
theorem C7_header_and_footer (env : Env) (command : List String) (s : St)
    (lines : List String) (code : Int)
    (hsp : env.spawn = some (lines, code)) :
    (stream_process env command s).1.logDirExists = true ∧
    (stream_process env command s).1.logChunks =
      s.logChunks ++
        (["\n" ++ sep80 ++ "\n",
          "Launch at " ++ env.nowIso ++ "\n",
          "Command: " ++ String.intercalate " " command ++ "\n\n"] ++
         lines ++ ["\nProcess exited with code " ++ toString code ++ "\n"]) ∧
    (code = 0 →
      (stream_process env command s).1.logChunks.getLast? =
        some "\nProcess exited with code 0\n") := by
  have h2 : (stream_process env command s).1.logChunks =
      s.logChunks ++
        (["\n" ++ sep80 ++ "\n",
          "Launch at " ++ env.nowIso ++ "\n",
          "Command: " ++ String.intercalate " " command ++ "\n\n"] ++
         lines ++ ["\nProcess exited with code " ++ toString code ++ "\n"]) := by
    rw [stream_process_logChunks env command s lines code hsp]
    simp [framedSection, headerChunks, footerChunk, List.append_assoc]
  refine ⟨?_, h2, ?_⟩
  · rw [stream_process_ok env command s lines code hsp]
    have hfr := (streamLoop_frame lines (postSpawnState env command s)).1
    simp only [flushLog, writeLog]
    rw [hfr, postSpawnState_eq]
  · intro h0
    subst h0
    rw [h2, ← List.append_assoc, ← List.append_assoc,
      getLast?_append_singleton]
    rfl

theorem C7_header_and_footer_witness :
    (stream_process wEnvDir ["npm", "run", "dev"] wSt).1.logDirExists = true ∧
    (stream_process wEnvDir ["npm", "run", "dev"] wSt).1.logChunks =
      wSt.logChunks ++
        (["\n" ++ sep80 ++ "\n",
          "Launch at " ++ wEnvDir.nowIso ++ "\n",
          "Command: " ++ String.intercalate " " ["npm", "run", "dev"] ++ "\n\n"] ++
         ["hello\n"] ++
         ["\nProcess exited with code " ++ toString (0 : Int) ++ "\n"]) ∧
    ((0 : Int) = 0 →
      (stream_process wEnvDir ["npm", "run", "dev"] wSt).1.logChunks.getLast? =
        some "\nProcess exited with code 0\n") :=
  C7_header_and_footer wEnvDir ["npm", "run", "dev"] wSt ["hello\n"] 0 rfl

/-- C8: when the main command cannot be spawned, `stream_process`
propagates the spawn failure to its caller, and `main` does not catch it:
both end in the propagated error, not a return value. -/
theorem C8_spawn_failure_propagates (env : Env) (command : List String)
    (s : St) (hsp : env.spawn = none) (hok : installOk env) :
    (stream_process env command s).2 = .error () ∧
    (main env s).2 = .error () := by
  constructor
  · rw [stream_process_err env command s hsp]
  · cases hnm : env.nodeModules with
    | some e =>
        rw [main, ensure_dependencies_skip env _ e hnm, afterInstall_ok_eq,
          stream_process_err env mainCommand _ hsp, afterStream_err_eq]
    | none =>
        have h0 : env.npmInstallCode = 0 := by
          rcases hok with hs | h0
          · rw [hnm] at hs; cases hs
          · exact h0
        rw [main, ensure_dependencies_installed env _ hnm h0,
          afterInstall_ok_eq, stream_process_err env mainCommand _ hsp,
          afterStream_err_eq]

theorem C8_spawn_failure_propagates_witness :
    (stream_process wEnvSpawnFail mainCommand wSt).2 = .error () ∧
    (main wEnvSpawnFail wSt).2 = .error () :=
  C8_spawn_failure_propagates wEnvSpawnFail mainCommand wSt rfl (Or.inl rfl)

/-- C9: the dependency-presence check tests only the existence of a
filesystem entry named `node_modules`, whatever its kind: if any entry —
including a regular file — exists at the project root,
`ensure_dependencies` skips installation and returns normally. -/
theorem C9_any_entry_skips_install (env : Env) (s : St) (e : Entry)
    (h : env.nodeModules = some e) :
    (ensure_dependencies env s).2 = .ok () ∧
    (ensure_dependencies env s).1.installSpawned = s.installSpawned := by
  rw [ensure_dependencies_skip env s e h]
  exact ⟨rfl, rfl⟩

theorem C9_any_entry_skips_install_witness :
    (ensure_dependencies wEnvFile wSt).2 = .ok () ∧
    (ensure_dependencies wEnvFile wSt).1.installSpawned =
      wSt.installSpawned :=
  C9_any_entry_skips_install wEnvFile wSt Entry.file rfl

/-- C10: when dependency installation fails, the log file and its
directory are untouched — the log is not opened, no chunk is written, the
durable content and the directory flag are unchanged, the main command is
not spawned — and the failure message goes to the console only. -/
theorem C10_install_failure_leaves_log_untouched (env : Env) (s : St)
    (h1 : env.nodeModules = none) (h2 : env.npmInstallCode ≠ 0) :
    (main env s).1.logOpened = s.logOpened ∧
    (main env s).1.logDirExists = s.logDirExists ∧
    (main env s).1.logChunks = s.logChunks ∧
    (main env s).1.durable = s.durable ∧
    (main env s).1.mainSpawned = s.mainSpawned ∧
    (main env s).1.console = s.console ++
      [consoleLine env "Starting SleekFinance launcher…",
       consoleLine env "Installing dependencies with npm install …",
       consoleLine env
         ("Dependency installation failed: " ++ npmInstallFailMsg)] := by
  rw [main_install_failed_eq env s h1 h2]
  refine ⟨rfl, rfl, rfl, rfl, rfl, ?_⟩
  simp [log, List.append_assoc]

theorem C10_install_failure_leaves_log_untouched_witness :
    (main wEnvInstallFail wSt).1.logOpened = wSt.logOpened ∧
    (main wEnvInstallFail wSt).1.logDirExists = wSt.logDirExists ∧
    (main wEnvInstallFail wSt).1.logChunks = wSt.logChunks ∧
    (main wEnvInstallFail wSt).1.durable = wSt.durable ∧
    (main wEnvInstallFail wSt).1.mainSpawned = wSt.mainSpawned ∧
    (main wEnvInstallFail wSt).1.console = wSt.console ++
      [consoleLine wEnvInstallFail "Starting SleekFinance launcher…",
       consoleLine wEnvInstallFail "Installing dependencies with npm install …",
       consoleLine wEnvInstallFail
         ("Dependency installation failed: " ++ npmInstallFailMsg)] :=
  C10_install_failure_leaves_log_untouched wEnvInstallFail wSt rfl (by decide)

end Launch
